import Mathlib

/-!
# Verification of the furnace-bot crafting controller

Shallow embedding of `src/src/model/osrs/furnace_bot.py` (repository
`OSRS-Bot-COLOR`): the recipe catalog, the retry driver `__retry`, the
click primitives, and the `main_loop` crafting state machine.

Modelling conventions:
* Wall-clock time is discrete (seconds). Each `time.sleep(n)` advances the
  clock by `n`; every other operation is instantaneous. The retry driver's
  per-attempt `time.sleep(1)` advances it by 1.
* External collaborators (the Morg HTTP inventory/idle API, the tag-colour
  object detector, hover-text reader, image search) are oracles supplied by
  the environment; probes that may be re-invoked are indexed by call number.
* Host lifecycle calls (`log_msg`, `update_progress`, `logout`, `stop`,
  mouse moves/clicks) are recorded as trace events. Modelled from the spec:
  `stop()` (implemented by the host `Bot` class, outside `src/`) halts the
  controller immediately — "Fatal condition: an unrecoverable runtime state
  triggering immediate logout and controller stop". Consequently code
  textually after a `stop()` call on the same control path is unreachable.
-/

namespace FurnaceBot

/-! ## Item-id constants

External constants from `utilities.api.item_ids` (outside `src/`); the
values are the standard game ids. No result below depends on the particular
numbers, only on their being nonzero and pairwise distinct. -/

def GOLD_BAR : Int := 2357

def SAPPHIRE : Int := 1607

def GOLD_AMULET_U : Int := 1673

def SAPPHIRE_RING : Int := 1637

/-! ## Name constants (module-level constants of `furnace_bot.py`) -/

def GOLD_BAR_NAME : String := "Gold bar"

def SAPPHIRE_NAME : String := "Sapphire"

def GOLD_AMULET_U_NAME : String := "Gold amulet (u)"

def SAPPHIRE_RING_NAME : String := "Sapphire ring"

/-- `Item` NamedTuple: an item in the game (display name, numeric id). -/
structure Item where
  name : String
  id : Int
deriving Repr, DecidableEq

/-- `CraftItem.__init_materials`: materials required to craft `item`. -/
def initMaterials (item : Item) : List Item :=
  if item.id = GOLD_AMULET_U then
    [⟨GOLD_BAR_NAME, GOLD_BAR⟩]
  else if item.id = SAPPHIRE_RING then
    [⟨GOLD_BAR_NAME, GOLD_BAR⟩, ⟨SAPPHIRE_NAME, SAPPHIRE⟩]
  else
    []

/-- `CraftItem`: a craftable target item together with its materials. -/
structure CraftItem where
  item : Item
  materials : List Item
deriving Repr, DecidableEq

/-- `CraftItem.__init__`: materials are computed from the target item. -/
def mkCraftItem (item : Item) : CraftItem :=
  ⟨item, initMaterials item⟩

/-- `OSRSFurnaceBot.__init_craft_item`: recipe lookup by display name. -/
def initCraftItem (itemName : String) : Option CraftItem :=
  if itemName = GOLD_AMULET_U_NAME then
    some (mkCraftItem ⟨GOLD_AMULET_U_NAME, GOLD_AMULET_U⟩)
  else if itemName = SAPPHIRE_RING_NAME then
    some (mkCraftItem ⟨SAPPHIRE_RING_NAME, SAPPHIRE_RING⟩)
  else
    none

/-! ## Designated-slot computation (`main_loop`, lines 150–158) -/

/-- `available_slots = 28`, minus 1 when `use_mould` holds
(the mould occupies a reserved inventory slot). -/
def availableSlots (useMould : Bool) : Nat :=
  if useMould then 28 - 1 else 28

/-- `max_craftable = available_slots // len(self.craft_item.materials)`. -/
def maxCraftable (useMould : Bool) (materials : List Item) : Nat :=
  availableSlots useMould / materials.length

/-- `last_craft_item_index = max_craftable - 1`. -/
def lastCraftItemIndex (useMould : Bool) (materials : List Item) : Nat :=
  maxCraftable useMould materials - 1

/-! ## Retry driver (`OSRSFurnaceBot.__retry`, lines 250–258)

The probe is indexed by call number (each Python call of `action_func()`
re-reads the world, so successive calls may differ). One loop iteration
takes 1 second (the `time.sleep(1)`); the probe call itself is
instantaneous, so the k-th call happens at elapsed time k and the loop
guard `time.time() - start_time < retry_seconds` admits calls at elapsed
times `0, ..., retry_seconds - 1`. The driver is a total function: timeout
is signalled by an absent result, never by an exception. -/

/-- Instrumented outcome of one `__retry` invocation. -/
structure RetryResult (α : Type) where
  result : Option α
  probeCalls : Nat
  onRetryCalls : Nat
  elapsed : Nat
deriving Repr

/-- The `while` loop of `__retry`, with `k` the index of the next probe
call and `r` the remaining whole seconds of budget. `hasOnRetry` mirrors
the `if on_retry_func:` guard. -/
def retryLoop {α : Type} (probe : Nat → Option α) (hasOnRetry : Bool) :
    Nat → Nat → RetryResult α
  | _, 0 => ⟨none, 0, 0, 0⟩
  | k, r + 1 =>
    match probe k with
    | some v => ⟨some v, 1, 0, 0⟩
    | none =>
      let rest := retryLoop probe hasOnRetry (k + 1) r
      ⟨rest.result, rest.probeCalls + 1,
        rest.onRetryCalls + (if hasOnRetry then 1 else 0), rest.elapsed + 1⟩

/-- `__retry(action_func, on_retry_func, retry_seconds)` (the source's
default for `retry_seconds` is 15). -/
def retry {α : Type} (probe : Nat → Option α) (hasOnRetry : Bool)
    (retrySeconds : Nat) : RetryResult α :=
  retryLoop probe hasOnRetry 0 retrySeconds

/-! ## Click primitives (lines 260–325)

`get_nearest_tag` results are modelled as `Option Unit` (the object's only
use is being hovered/clicked); `mouseover_text` results as `Bool`. Each
primitive records whether it succeeded, how many `mouse.click()` calls it
performed, and the time its internal retries consumed. Mouse moves and the
camera rotation of the on-retry recovery actions are not clicks. -/

/-- A Python-truthy `Bool` probe viewed as an `Option` probe (the retry
driver treats a falsy return as failure). -/
def boolProbe (p : Nat → Bool) : Nat → Option Unit :=
  fun k => if p k then some () else none

/-- Instrumented outcome of one click-primitive invocation. -/
structure ClickResult where
  success : Bool
  clicks : Nat
  timeTaken : Nat
deriving Repr, DecidableEq

/-- `__click_on_furnace`: retry-find the PINK-tagged object (with the
camera-rotating `retry_find_furnace` recovery action), then retry-verify
the "Smelt" hover text while moving the mouse over it; click only after
the hover verification succeeds. Both retries use the default 15 s. -/
def clickOnFurnace (nearestPink : Nat → Option Unit) (hoverSmelt : Nat → Bool) :
    ClickResult :=
  let rFind := retry nearestPink true 15
  match rFind.result with
  | some _ =>
    let rHover := retry (boolProbe hoverSmelt) false 15
    match rHover.result with
    | some _ => ⟨true, 1, rFind.elapsed + rHover.elapsed⟩
    | none => ⟨false, 0, rFind.elapsed + rHover.elapsed⟩
  | none => ⟨false, 0, rFind.elapsed⟩

/-- `__click_on_bank`: structurally identical to `__click_on_furnace`,
searching the RED tag and verifying "Bank" hover text. -/
def clickOnBank (nearestRed : Nat → Option Unit) (hoverBank : Nat → Bool) :
    ClickResult :=
  let rFind := retry nearestRed true 15
  match rFind.result with
  | some _ =>
    let rHover := retry (boolProbe hoverBank) false 15
    match rHover.result with
    | some _ => ⟨true, 1, rFind.elapsed + rHover.elapsed⟩
    | none => ⟨false, 0, rFind.elapsed + rHover.elapsed⟩
  | none => ⟨false, 0, rFind.elapsed⟩

/-- `__begin_crafting`: a single (no-retry) `get_nearest_tag(GREEN)`
attempt, then retry-verify hover text containing the item name; click only
after the hover verification succeeds. -/
def beginCrafting (craftBtn : Option Unit) (hoverItemName : Nat → Bool) :
    ClickResult :=
  match craftBtn with
  | some _ =>
    let rHover := retry (boolProbe hoverItemName) false 15
    match rHover.result with
    | some _ => ⟨true, 1, rHover.elapsed⟩
    | none => ⟨false, 0, rHover.elapsed⟩
  | none => ⟨false, 0, 0⟩

/-! ## Main-loop state machine (`main_loop`, lines 124–235) -/

/-- One record of the inventory snapshot returned by the Morg API
(`api_m.get_inv()`): a slot index paired with the item id occupying it. -/
structure InvSlot where
  index : Nat
  id : Int
deriving Repr, DecidableEq

/-- Per-iteration environment: the inventory snapshot, the idle flag, and
the oracles consumed by the click primitives and the bank-phase image
search (all external collaborators). -/
structure IterEnv where
  inv : List InvSlot
  idle : Bool
  nearestPink : Nat → Option Unit
  hoverSmelt : Nat → Bool
  nearestRed : Nat → Option Unit
  hoverBank : Nat → Bool
  craftBtn : Option Unit
  hoverItemName : Nat → Bool
  materialFound : String → Bool

/-- Observable trace events of the controller (host lifecycle calls,
input simulation, primitive invocations, sleeps). -/
inductive Ev where
  | logMsg (s : String)
  | moveToSlot (i : Nat)
  | moveMouse
  | click
  | sleep (secs : Nat)
  | updateProgress (q : ℚ)
  | logout
  | stop
  | primFurnace (ok : Bool)
  | primBegin (ok : Bool)
  | primBank (ok : Bool)
  | searchImg (file : String) (found : Bool)
deriving Repr, DecidableEq

/-- Controller loop state: the phase string, the modelled elapsed seconds
since `start_time`, and instrumentation flags — `stopped` records that
`stop()` has run (the controller is halted), `fatal` that the halt came
from a fatal `__logout` inside the loop body rather than the normal
end-of-budget shutdown. -/
structure LoopState where
  state : String
  elapsed : Nat
  stopped : Bool
  fatal : Bool
deriving Repr, DecidableEq

/-- `state = "pre-craft"`, before the loop (line 149). -/
def initialState : LoopState :=
  ⟨"pre-craft", 0, false, false⟩

/-- `__logout(msg)` (lines 245–248): log, log out, stop. -/
def logoutEvs (msg : String) : List Ev :=
  [Ev.logMsg msg, Ev.logout, Ev.stop]

/-- A fatal `__logout` inside the loop body: emits the handler's events and
halts the controller (`stop()` halts — see the header). -/
def fatalStop (ls : LoopState) (evs : List Ev) (msg : String) :
    LoopState × List Ev :=
  ({ls with stopped := true, fatal := true}, evs ++ logoutEvs msg)

/-- `next((item for item in inv if item["index"] == last_craft_item_index), None)`
followed by `["id"]`: the id found at the designated slot, if any. -/
def lastItemIdOf (inv : List InvSlot) (idx : Nat) : Option Int :=
  (inv.find? (fun it => it.index == idx)).map (fun it => it.id)

/-- `f"{material.name.replace(' ', '_')}.png"`. -/
def imgFileName (matName : String) : String :=
  matName.replace " " "_" ++ ".png"

/-- The bank-phase withdrawal `for` loop (lines 210–219): for each material
in recipe order, log, search its image in the game view (confidence 0.50);
on a hit, move-click it and sleep 1 s; on a miss, fail with the fatal
message (the caller invokes `__logout`, which halts, so the remaining
materials are not processed). Returns the emitted events and the fatal
message, if any. -/
def withdrawMaterials (found : String → Bool) : List Item → List Ev × Option String
  | [] => ([], none)
  | m :: rest =>
    let fname := imgFileName m.name
    let evs0 := [Ev.logMsg ("Searching for " ++ m.name ++ "... (" ++ fname ++ ")")]
    if found m.name then
      let evs1 := evs0 ++ [Ev.searchImg fname true, Ev.moveMouse, Ev.click, Ev.sleep 1]
      let res := withdrawMaterials found rest
      (evs1 ++ res.1, res.2)
    else
      (evs0 ++ [Ev.searchImg fname false],
        some ("Material " ++ m.name ++ " not found."))

/-- Total seconds slept by a list of events. -/
def sleepTotal (evs : List Ev) : Nat :=
  evs.foldl (fun a e => match e with | Ev.sleep n => a + n | _ => a) 0

/-- `__exit_bank` (lines 300–306): unconditional move-and-click on the
fixed close-button rectangle. -/
def exitBankEvs : List Ev :=
  [Ev.moveMouse, Ev.click]

/-- The common tail of a non-`continue`, non-fatal loop iteration
(lines 227–231): `time.sleep(1)` then
`update_progress((time.time() - start_time) / end_time)`. -/
def endOfBody (endTime : Nat) (ls : LoopState) (evs : List Ev) :
    LoopState × List Ev :=
  let e2 := ls.elapsed + 1
  ({ls with elapsed := e2},
    evs ++ [Ev.sleep 1, Ev.updateProgress ((e2 : ℚ) / (endTime : ℚ))])

/-- The phase dispatch of the loop body (lines 175–226), entered with the
truthy designated-slot id `lastId` already in hand and the iteration's
events so far in `evs`. -/
def phaseStep (ci : CraftItem) (endTime : Nat) (env : IterEnv) (ls : LoopState)
    (lastId : Int) (evs : List Ev) : LoopState × List Ev :=
  if ls.state = "pre-craft" then
    if lastId = ci.item.id then
      ({ls with state := "post-craft"},
        evs ++ [Ev.logMsg "Crafting complete. Moving to bank."])
    else
      let rf := clickOnFurnace env.nearestPink env.hoverSmelt
      let ls1 := {ls with elapsed := ls.elapsed + rf.timeTaken}
      let evs1 := evs ++ [Ev.primFurnace rf.success]
      if rf.success = false then
        fatalStop ls1 evs1 "Furnace not found."
      else
        let rb := beginCrafting env.craftBtn env.hoverItemName
        let ls2 := {ls1 with elapsed := ls1.elapsed + rb.timeTaken}
        let evs2 := evs1 ++ [Ev.primBegin rb.success]
        let ls3 := if rb.success then {ls2 with state := "craft"} else ls2
        endOfBody endTime ls3 evs2
  else if ls.state = "craft" then
    if lastId = ci.item.id then
      endOfBody endTime {ls with state := "post-craft"}
        (evs ++ [Ev.logMsg "Crafting complete. Moving to bank."])
    else
      let evs1 := evs ++ [Ev.logMsg "Crafting..."]
      if env.idle then
        endOfBody endTime {ls with state := "pre-craft"}
          (evs1 ++ [Ev.logMsg "Player is idle."])
      else
        endOfBody endTime ls evs1
  else if ls.state = "post-craft" then
    let rb := clickOnBank env.nearestRed env.hoverBank
    let ls1 := {ls with elapsed := ls.elapsed + rb.timeTaken}
    let evs1 := evs ++ [Ev.primBank rb.success]
    if rb.success = false then
      fatalStop ls1 evs1 "Bank not found."
    else
      let evs2 := evs1 ++ [Ev.logMsg "Moving to bank...", Ev.sleep 10]
      endOfBody endTime {ls1 with state := "bank", elapsed := ls1.elapsed + 10} evs2
  else if ls.state = "bank" then
    let evs1 := evs ++ [Ev.moveToSlot 4, Ev.click, Ev.sleep 1]
    let ls1 := {ls with elapsed := ls.elapsed + 1}
    let res := withdrawMaterials env.materialFound ci.materials
    let ls2 := {ls1 with elapsed := ls1.elapsed + sleepTotal res.1}
    match res.2 with
    | none =>
      endOfBody endTime {ls2 with state := "pre-craft"} (evs1 ++ res.1 ++ exitBankEvs)
    | some msg =>
      fatalStop ls2 (evs1 ++ res.1) msg
  else
    endOfBody endTime ls evs

/-- One iteration of the `while` body (lines 166–231): log the phase,
fetch the inventory snapshot, look up the designated slot; on a truthy id
dispatch on the phase, otherwise take the fatal path (the walrus-assigned
`last_item_id` is falsy both when the slot is absent and when its id is 0). -/
def iteration (ci : CraftItem) (lastIdx endTime : Nat) (env : IterEnv)
    (ls : LoopState) : LoopState × List Ev :=
  let evs0 : List Ev := [Ev.logMsg ("State: " ++ ls.state)]
  match lastItemIdOf env.inv lastIdx with
  | some lastId =>
    if lastId ≠ 0 then
      phaseStep ci endTime env ls lastId
        (evs0 ++ [Ev.logMsg ("Last item id: " ++ toString lastId)])
    else
      fatalStop ls evs0 "Last item not found. idk what to do. logging out."
  | none =>
    fatalStop ls evs0 "Last item not found. idk what to do. logging out."

/-- The normal shutdown (lines 233–235): `update_progress(1)`, then
`__logout("Finished.")`. The `self.stop()` on line 235 is unreachable:
`__logout` already called `stop()`, which halts the controller. -/
def finishEvs : List Ev :=
  [Ev.updateProgress 1, Ev.logMsg "Finished.", Ev.logout, Ev.stop]

/-- The `while time.time() - start_time < end_time` loop (lines 163–235),
driven by fuel (the source loop needs no fuel: every full iteration sleeps,
but the `continue` shortcut makes that argument non-structural). `i` is the
iteration number, indexing the per-iteration environments. -/
def runLoop (ci : CraftItem) (lastIdx endTime : Nat) (envs : Nat → IterEnv) :
    Nat → Nat → LoopState → LoopState × List Ev
  | 0, _, ls => (ls, [])
  | fuel + 1, i, ls =>
    if ls.stopped then (ls, [])
    else if ls.elapsed < endTime then
      let r1 := iteration ci lastIdx endTime (envs i) ls
      let r2 := runLoop ci lastIdx endTime envs fuel (i + 1) r1.1
      (r2.1, r1.2 ++ r2.2)
    else
      ({ls with stopped := true}, finishEvs)

/-- `main_loop` (lines 124–235): the inventory-tab prologue, the
designated-slot computation (`use_mould` is hard-coded `True` on line 152),
and the main loop; `end_time = running_time * 60` seconds. -/
def mainLoop (ci : CraftItem) (runningTime : Nat) (envs : Nat → IterEnv)
    (fuel : Nat) : LoopState × List Ev :=
  let lastIdx := lastCraftItemIndex true ci.materials
  let endTime := runningTime * 60
  let prologue := [Ev.logMsg "Selecting inventory...", Ev.moveMouse, Ev.click,
    Ev.logMsg ("Max craftable: " ++ toString (maxCraftable true ci.materials))]
  let r := runLoop ci lastIdx endTime envs fuel 0 initialState
  (r.1, prologue ++ r.2)

/-- The four legitimate phase values of the controller. -/
def validPhase (s : String) : Prop :=
  s = "pre-craft" ∨ s = "craft" ∨ s = "post-craft" ∨ s = "bank"

/-- `True` exactly on `Ev.sleep` events. -/
def isSleep : Ev → Bool
  | Ev.sleep _ => true
  | _ => false

/-- `True` exactly on `Ev.updateProgress` events. -/
def isProgress : Ev → Bool
  | Ev.updateProgress _ => true
  | _ => false

/-- `lastSeg a tail evs`: wherever the event `a` occurs in the trace
`evs`, exactly `tail` follows it. `lastSeg Ev.stop []` says nothing at all
is emitted after a `stop`; `lastSeg Ev.logout [Ev.stop]` says every
`logout` is immediately followed by `stop` and then nothing. -/
def lastSeg (a : Ev) (tail evs : List Ev) : Prop :=
  ∀ pre post, evs = pre ++ a :: post → post = tail

/-- A concrete all-succeeding environment, the base point for evaluating
the controller on concrete inputs. -/
def envTemplate : IterEnv where
  inv := []
  idle := false
  nearestPink := fun _ => some ()
  hoverSmelt := fun _ => true
  nearestRed := fun _ => some ()
  hoverBank := fun _ => true
  craftBtn := some ()
  hoverItemName := fun _ => true
  materialFound := fun _ => true

/-- The sapphire-ring recipe (2 materials), for concrete evaluations. -/
def sapphireRecipe : CraftItem :=
  mkCraftItem ⟨SAPPHIRE_RING_NAME, SAPPHIRE_RING⟩

/-- The gold-amulet recipe (1 material), for concrete evaluations. -/
def goldRecipe : CraftItem :=
  mkCraftItem ⟨GOLD_AMULET_U_NAME, GOLD_AMULET_U⟩

/-! ## Theorems -/

theorem retryLoop_first_success {α : Type} (probe : Nat → Option α) (h : Bool) (v : α) :
    ∀ (r k j : Nat), j < r → probe (k + j) = some v →
      (∀ i, i < j → probe (k + i) = none) →
      retryLoop probe h k r = ⟨some v, j + 1, if h then j else 0, j⟩ := by
  intro r
  induction r with
  | zero => intro k j hj _ _; exact absurd hj (Nat.not_lt_zero j)
  | succ r ih =>
    intro k j hj hv hprev
    cases j with
    | zero =>
      rw [Nat.add_zero] at hv
      cases h <;> simp [retryLoop, hv]
    | succ j =>
      have h0 : probe k = none := by
        have := hprev 0 (Nat.succ_pos j)
        rwa [Nat.add_zero] at this
      have hv2 : probe (k + 1 + j) = some v := by
        have he : k + 1 + j = k + (j + 1) := by omega
        rw [he]; exact hv
      have hprev2 : ∀ i, i < j → probe (k + 1 + i) = none := by
        intro i hi
        have he : k + 1 + i = k + (i + 1) := by omega
        rw [he]; exact hprev (i + 1) (Nat.succ_lt_succ hi)
      have hrec := ih (k + 1) j (Nat.lt_of_succ_lt_succ hj) hv2 hprev2
      cases h <;> simp [retryLoop, h0, hrec]

theorem retryLoop_all_fail {α : Type} (probe : Nat → Option α) (h : Bool) :
    ∀ (r k : Nat), (∀ i, i < r → probe (k + i) = none) →
      retryLoop probe h k r = ⟨none, r, if h then r else 0, r⟩ := by
  intro r
  induction r with
  | zero => intro k _; cases h <;> rfl
  | succ r ih =>
    intro k hall
    have h0 : probe k = none := by
      have := hall 0 (Nat.succ_pos r)
      rwa [Nat.add_zero] at this
    have hall2 : ∀ i, i < r → probe (k + 1 + i) = none := by
      intro i hi
      have he : k + 1 + i = k + (i + 1) := by omega
      rw [he]; exact hall (i + 1) (Nat.succ_lt_succ hi)
    have hrec := ih (k + 1) hall2
    cases h <;> simp [retryLoop, h0, hrec]

/-- C5: for every probe and timeout, `__retry` returns the first non-empty
probe result when the probe succeeds within the window — making no further
probe calls after that success (`probeCalls = k + 1`) and having invoked
the optional on-retry action between the unsuccessful attempts — and when
the probe never succeeds it returns an absent result (no exception: the
driver is a total function into `Option`) after at least `retrySeconds`
elapsed, within one 1-second poll-interval tolerance. -/
theorem retry_contract {α : Type} (probe : Nat → Option α) (hasOnRetry : Bool) (t : Nat) :
    (∀ k v, k < t → probe k = some v → (∀ j, j < k → probe j = none) →
        retry probe hasOnRetry t =
          ⟨some v, k + 1, if hasOnRetry then k else 0, k⟩) ∧
    ((∀ k, k < t → probe k = none) →
        (retry probe hasOnRetry t).result = none ∧
        t ≤ (retry probe hasOnRetry t).elapsed ∧
        (retry probe hasOnRetry t).elapsed ≤ t + 1 ∧
        (retry probe hasOnRetry t).onRetryCalls =
          (if hasOnRetry then (retry probe hasOnRetry t).probeCalls else 0)) := by
  constructor
  · intro k v hk hv hprev
    have h1 := retryLoop_first_success probe hasOnRetry v t 0 k hk
      (by simpa using hv) (by simpa using hprev)
    simpa [retry] using h1
  · intro hall
    have h1 := retryLoop_all_fail probe hasOnRetry t 0 (by simpa using hall)
    rw [retry, h1]
    refine ⟨rfl, Nat.le_refl t, Nat.le_succ t, ?_⟩
    cases hasOnRetry <;> rfl

theorem retry_contract_witness :
    retry (fun k => if k = 1 then some 42 else none) true 3 = ⟨some 42, 2, 1, 1⟩ ∧
    (retry (fun _ => (none : Option Nat)) false 3).result = none :=
  ⟨(retry_contract (fun k => if k = 1 then some 42 else none) true 3).1 1 42
      (by decide) (by decide) (by decide),
    ((retry_contract (fun _ => (none : Option Nat)) false 3).2
      (fun _ _ => rfl)).1⟩

/-- C6: the designated slot index is `availableSlots / materialsPerCraft - 1`
with `availableSlots = 28 - 1` when the mould occupies its reserved slot;
for the 1-material recipe (gold amulet) with the mould it is 26, and for
the 2-material recipe (sapphire ring) with the mould it is 12. -/
theorem designated_slot_formula :
    (∀ (u : Bool) (ms : List Item),
        lastCraftItemIndex u ms = availableSlots u / ms.length - 1) ∧
    availableSlots true = 28 - 1 ∧
    lastCraftItemIndex true (mkCraftItem ⟨GOLD_AMULET_U_NAME, GOLD_AMULET_U⟩).materials = 26 ∧
    lastCraftItemIndex true (mkCraftItem ⟨SAPPHIRE_RING_NAME, SAPPHIRE_RING⟩).materials = 12 := by
  refine ⟨fun u ms => rfl, rfl, ?_, ?_⟩ <;> decide

/-- C9: each of `__click_on_furnace`, `__click_on_bank` and
`__begin_crafting` returns a boolean success indicator, performs exactly
one click when it returns `true` and none when it returns `false`, and
clicks only after its hover-text verification retry has succeeded. -/
theorem primitive_click_contract (np nr : Nat → Option Unit) (hs hb hn : Nat → Bool)
    (cb : Option Unit) :
    ((clickOnFurnace np hs).clicks = if (clickOnFurnace np hs).success then 1 else 0) ∧
    ((clickOnFurnace np hs).success = true →
      (retry (boolProbe hs) false 15).result.isSome = true) ∧
    ((clickOnBank nr hb).clicks = if (clickOnBank nr hb).success then 1 else 0) ∧
    ((clickOnBank nr hb).success = true →
      (retry (boolProbe hb) false 15).result.isSome = true) ∧
    ((beginCrafting cb hn).clicks = if (beginCrafting cb hn).success then 1 else 0) ∧
    ((beginCrafting cb hn).success = true →
      (retry (boolProbe hn) false 15).result.isSome = true) := by
  refine ⟨?_, ?_, ?_, ?_, ?_, ?_⟩ <;>
    simp only [clickOnFurnace, clickOnBank, beginCrafting] <;>
    (repeat' split) <;> simp_all

theorem primitive_click_contract_witness :
    (retry (boolProbe fun _ => true) false 15).result.isSome = true ∧
    (retry (boolProbe fun k => k < 20) false 15).result.isSome = true ∧
    (retry (boolProbe fun k => k = k) false 15).result.isSome = true :=
  ⟨(primitive_click_contract (fun _ => some ()) (fun _ => some ())
      (fun _ => true) (fun k => k < 20) (fun k => k = k) (some ())).2.1 (by decide),
    (primitive_click_contract (fun _ => some ()) (fun _ => some ())
      (fun _ => true) (fun k => k < 20) (fun k => k = k) (some ())).2.2.2.1 (by decide),
    (primitive_click_contract (fun _ => some ()) (fun _ => some ())
      (fun _ => true) (fun k => k < 20) (fun k => k = k) (some ())).2.2.2.2.2 (by decide)⟩

theorem phaseStep_state_valid (ci : CraftItem) (endTime : Nat) (env : IterEnv)
    (ls : LoopState) (lastId : Int) (evs : List Ev) (h : validPhase ls.state) :
    validPhase (phaseStep ci endTime env ls lastId evs).1.state := by
  rcases h with h | h | h | h <;>
    simp only [phaseStep, h, reduceIte, String.reduceEq] <;>
    repeat' split <;>
    simp_all [validPhase, endOfBody, fatalStop]

theorem iteration_state_valid (ci : CraftItem) (lastIdx endTime : Nat)
    (env : IterEnv) (ls : LoopState) (h : validPhase ls.state) :
    validPhase (iteration ci lastIdx endTime env ls).1.state := by
  unfold iteration
  split
  · split
    · exact phaseStep_state_valid _ _ _ _ _ _ h
    · simpa [fatalStop] using h
  · simpa [fatalStop] using h

theorem runLoop_state_valid (ci : CraftItem) (lastIdx endTime : Nat)
    (envs : Nat → IterEnv) :
    ∀ (fuel i : Nat) (ls : LoopState), validPhase ls.state →
      validPhase (runLoop ci lastIdx endTime envs fuel i ls).1.state := by
  intro fuel
  induction fuel with
  | zero => intro i ls h; exact h
  | succ fuel ih =>
    intro i ls h
    unfold runLoop
    split
    · exact h
    · split
      · exact ih (i + 1) _ (iteration_state_valid ci lastIdx endTime (envs i) ls h)
      · exact h

/-- C7: whenever the designated slot index is absent from the inventory
snapshot — at any phase — the iteration takes the fatal path: its trace is
exactly the state log followed by the `__logout` handler (log, logout,
stop), the controller is halted, and the phase is not changed (no silent
continuation of the state machine). -/
theorem missing_slot_fatal (ci : CraftItem) (lastIdx endTime : Nat)
    (env : IterEnv) (ls : LoopState)
    (habsent : lastItemIdOf env.inv lastIdx = none) :
    (iteration ci lastIdx endTime env ls).1.stopped = true ∧
    (iteration ci lastIdx endTime env ls).1.fatal = true ∧
    (iteration ci lastIdx endTime env ls).1.state = ls.state ∧
    (iteration ci lastIdx endTime env ls).2 =
      [Ev.logMsg ("State: " ++ ls.state)] ++
        logoutEvs "Last item not found. idk what to do. logging out." := by
  simp [iteration, habsent, fatalStop]

theorem missing_slot_fatal_witness :
    (iteration sapphireRecipe 12 1800 envTemplate initialState).1.stopped = true ∧
    (iteration sapphireRecipe 12 1800 envTemplate initialState).1.fatal = true ∧
    (iteration sapphireRecipe 12 1800 envTemplate initialState).1.state = initialState.state ∧
    (iteration sapphireRecipe 12 1800 envTemplate initialState).2 =
      [Ev.logMsg ("State: " ++ initialState.state)] ++
        logoutEvs "Last item not found. idk what to do. logging out." :=
  missing_slot_fatal sapphireRecipe 12 1800 envTemplate initialState (by decide)

/-- C8: in the `craft` phase, with the designated slot readable (present
and with a truthy id): holding the target id moves the phase to
`post-craft`; not holding it while the API reports the player idle moves
it to `pre-craft`; not holding it while the player is not idle leaves it
at `craft`. -/
theorem craft_phase_transitions (ci : CraftItem) (lastIdx endTime : Nat)
    (env : IterEnv) (ls : LoopState) (lastId : Int)
    (hstate : ls.state = "craft")
    (hfound : lastItemIdOf env.inv lastIdx = some lastId) (hnz : lastId ≠ 0) :
    (lastId = ci.item.id →
      (iteration ci lastIdx endTime env ls).1.state = "post-craft") ∧
    (lastId ≠ ci.item.id → env.idle = true →
      (iteration ci lastIdx endTime env ls).1.state = "pre-craft") ∧
    (lastId ≠ ci.item.id → env.idle = false →
      (iteration ci lastIdx endTime env ls).1.state = "craft") := by
  refine ⟨?_, ?_, ?_⟩
  · intro heq
    rw [heq] at hnz
    simp [iteration, hfound, hnz, phaseStep, hstate, heq, endOfBody]
  · intro hne hidle
    simp [iteration, hfound, hnz, phaseStep, hstate, hne, hidle, endOfBody]
  · intro hne hidle
    simp [iteration, hfound, hnz, phaseStep, hstate, hne, hidle, endOfBody]

theorem craft_phase_transitions_witness :
    (iteration sapphireRecipe 12 1800
      {envTemplate with inv := [⟨12, SAPPHIRE_RING⟩]}
      {initialState with state := "craft"}).1.state = "post-craft" :=
  (craft_phase_transitions sapphireRecipe 12 1800
      {envTemplate with inv := [⟨12, SAPPHIRE_RING⟩]}
      {initialState with state := "craft"} SAPPHIRE_RING
      rfl (by decide) (by decide)).1 rfl

/-- C10: the phase variable is initialized to `pre-craft` before the loop,
and at every point of the run it holds one of the four values `pre-craft`,
`craft`, `post-craft`, `bank`: every iteration, the whole loop, and the
whole of `main_loop` map a valid phase to a valid phase. -/
theorem phase_invariant (ci : CraftItem) (lastIdx endTime rt : Nat)
    (envs : Nat → IterEnv) (env : IterEnv) (fuel i : Nat) (ls : LoopState)
    (h : validPhase ls.state) :
    initialState.state = "pre-craft" ∧
    validPhase (iteration ci lastIdx endTime env ls).1.state ∧
    validPhase (runLoop ci lastIdx endTime envs fuel i ls).1.state ∧
    validPhase (mainLoop ci rt envs fuel).1.state := by
  refine ⟨rfl, iteration_state_valid ci lastIdx endTime env ls h,
    runLoop_state_valid ci lastIdx endTime envs fuel i ls h, ?_⟩
  have hinit : validPhase initialState.state := Or.inl rfl
  simpa [mainLoop] using
    runLoop_state_valid ci (lastCraftItemIndex true ci.materials) (rt * 60) envs fuel 0
      initialState hinit

theorem phase_invariant_witness :
    validPhase (mainLoop sapphireRecipe 0 (fun _ => envTemplate) 3).1.state :=
  (phase_invariant sapphireRecipe 12 1800 0 (fun _ => envTemplate) envTemplate 3 0
      initialState (Or.inl rfl)).2.2.2

theorem withdraw_no_stop (found : String → Bool) (ms : List Item) :
    Ev.stop ∉ (withdrawMaterials found ms).1 ∧
      Ev.logout ∉ (withdrawMaterials found ms).1 := by
  induction ms with
  | nil => simp [withdrawMaterials]
  | cons m rest ih =>
    by_cases hf : found m.name <;> simp_all [withdrawMaterials, hf]

theorem fatalStop_shape (ls : LoopState) (evs : List Ev) (msg : String)
    (hst : Ev.stop ∉ evs) (hlg : Ev.logout ∉ evs) :
    (fatalStop ls evs msg).1.stopped = true ∧
    (fatalStop ls evs msg).1.fatal = true ∧
    ∃ p m, Ev.stop ∉ p ∧ Ev.logout ∉ p ∧
      (fatalStop ls evs msg).2 = p ++ [Ev.logMsg m, Ev.logout, Ev.stop] :=
  ⟨rfl, rfl, evs, msg, hst, hlg, by simp [fatalStop, logoutEvs]⟩

theorem endOfBody_no_stop (et : Nat) (ls : LoopState) (evs : List Ev)
    (hst : Ev.stop ∉ evs) (hlg : Ev.logout ∉ evs) :
    Ev.stop ∉ (endOfBody et ls evs).2 ∧ Ev.logout ∉ (endOfBody et ls evs).2 := by
  constructor <;> simp [endOfBody, hst, hlg]

theorem phaseStep_shape (ci : CraftItem) (et : Nat) (env : IterEnv)
    (ls : LoopState) (lastId : Int) (evs : List Ev)
    (hst : Ev.stop ∉ evs) (hlg : Ev.logout ∉ evs) :
    ((phaseStep ci et env ls lastId evs).1.stopped = ls.stopped ∧
      (phaseStep ci et env ls lastId evs).1.fatal = ls.fatal ∧
      Ev.stop ∉ (phaseStep ci et env ls lastId evs).2 ∧
      Ev.logout ∉ (phaseStep ci et env ls lastId evs).2) ∨
    ((phaseStep ci et env ls lastId evs).1.stopped = true ∧
      (phaseStep ci et env ls lastId evs).1.fatal = true ∧
      ∃ p m, Ev.stop ∉ p ∧ Ev.logout ∉ p ∧
        (phaseStep ci et env ls lastId evs).2 = p ++ [Ev.logMsg m, Ev.logout, Ev.stop]) := by
  obtain ⟨hw1, hw2⟩ := withdraw_no_stop env.materialFound ci.materials
  unfold phaseStep
  dsimp only
  repeat' split
  all_goals
    first
      | (left
         refine ⟨rfl, rfl, ?_, ?_⟩ <;> simp_all [endOfBody, exitBankEvs])
      | (right
         refine fatalStop_shape _ _ _ ?_ ?_ <;> simp_all)

theorem iteration_shape (ci : CraftItem) (li et : Nat) (env : IterEnv) (ls : LoopState) :
    ((iteration ci li et env ls).1.stopped = ls.stopped ∧
      (iteration ci li et env ls).1.fatal = ls.fatal ∧
      Ev.stop ∉ (iteration ci li et env ls).2 ∧
      Ev.logout ∉ (iteration ci li et env ls).2) ∨
    ((iteration ci li et env ls).1.stopped = true ∧
      (iteration ci li et env ls).1.fatal = true ∧
      ∃ p m, Ev.stop ∉ p ∧ Ev.logout ∉ p ∧
        (iteration ci li et env ls).2 = p ++ [Ev.logMsg m, Ev.logout, Ev.stop]) := by
  unfold iteration
  repeat' split
  · exact phaseStep_shape ci et env ls _ _ (by simp) (by simp)
  · exact Or.inr (fatalStop_shape _ _ _ (by simp) (by simp))
  · exact Or.inr (fatalStop_shape _ _ _ (by simp) (by simp))

theorem runLoop_stopped (ci : CraftItem) (li et : Nat) (envs : Nat → IterEnv)
    (fuel i : Nat) (ls : LoopState) (h : ls.stopped = true) :
    runLoop ci li et envs fuel i ls = (ls, []) := by
  cases fuel <;> simp [runLoop, h]

theorem lastSeg_self (a : Ev) (tail : List Ev) (h : a ∉ tail) :
    lastSeg a tail (a :: tail) := by
  intro pre post he
  cases pre with
  | nil =>
    injection he with h1 h2
    exact h2.symm
  | cons q pre =>
    injection he with h1 h2
    exact absurd (by rw [h2]; simp) h

theorem lastSeg_of_not_mem (a : Ev) (tail evs : List Ev) (h : a ∉ evs) :
    lastSeg a tail evs := by
  intro pre post he
  exact absurd (by rw [he]; simp) h

theorem lastSeg_append (a : Ev) (tail : List Ev) (xs ys : List Ev)
    (hy : lastSeg a tail ys) : a ∉ xs → lastSeg a tail (xs ++ ys) := by
  induction xs with
  | nil => intro _; simpa using hy
  | cons x xs ih =>
    intro hx pre post h
    cases pre with
    | nil =>
      injection h with h1 h2
      subst h1
      exact absurd (List.mem_cons_self _ _) hx
    | cons q pre =>
      injection h with h1 h2
      exact ih (fun hm => hx (List.mem_cons_of_mem x hm)) pre post h2

theorem lastSeg_handler_stop (p : List Ev) (m : String) (hp : Ev.stop ∉ p) :
    lastSeg Ev.stop [] (p ++ [Ev.logMsg m, Ev.logout, Ev.stop]) := by
  have he : p ++ [Ev.logMsg m, Ev.logout, Ev.stop]
      = (p ++ [Ev.logMsg m, Ev.logout]) ++ [Ev.stop] := by simp
  rw [he]
  refine lastSeg_append Ev.stop [] _ _ (lastSeg_self Ev.stop [] (by simp)) ?_
  simp [hp]

theorem lastSeg_handler_logout (p : List Ev) (m : String) (hp : Ev.logout ∉ p) :
    lastSeg Ev.logout [Ev.stop] (p ++ [Ev.logMsg m, Ev.logout, Ev.stop]) := by
  have he : p ++ [Ev.logMsg m, Ev.logout, Ev.stop]
      = (p ++ [Ev.logMsg m]) ++ [Ev.logout, Ev.stop] := by simp
  rw [he]
  refine lastSeg_append Ev.logout [Ev.stop] _ _
    (lastSeg_self Ev.logout [Ev.stop] (by simp)) ?_
  simp [hp]

theorem runLoop_lastSeg (ci : CraftItem) (li et : Nat) (envs : Nat → IterEnv) :
    ∀ (fuel i : Nat) (ls : LoopState),
      lastSeg Ev.stop [] (runLoop ci li et envs fuel i ls).2 ∧
      lastSeg Ev.logout [Ev.stop] (runLoop ci li et envs fuel i ls).2 := by
  intro fuel
  induction fuel with
  | zero =>
    intro i ls
    constructor <;> exact lastSeg_of_not_mem _ _ _ (by simp [runLoop])
  | succ fuel ih =>
    intro i ls
    simp only [runLoop]
    split
    · constructor <;> exact lastSeg_of_not_mem _ _ _ (by simp)
    · split
      · rcases iteration_shape ci li et (envs i) ls with
          ⟨hs, hf, hst, hlg⟩ | ⟨hs, hf, p, m, hpst, hplg, hevs⟩
        · constructor
          · exact lastSeg_append _ _ _ _ (ih (i + 1) _).1 hst
          · exact lastSeg_append _ _ _ _ (ih (i + 1) _).2 hlg
        · have hrl := runLoop_stopped ci li et envs fuel (i + 1) _ hs
          rw [hrl]
          constructor
          · simpa [hevs] using lastSeg_handler_stop p m hpst
          · simpa [hevs] using lastSeg_handler_logout p m hplg
      · constructor
        · simpa [finishEvs] using
            lastSeg_handler_stop [Ev.updateProgress 1] "Finished." (by decide)
        · simpa [finishEvs] using
            lastSeg_handler_logout [Ev.updateProgress 1] "Finished." (by decide)

/-- C2: every fatal condition routes through the uniform `__logout`
handler and halts the controller: in any run of `main_loop`, whatever the
environments, a `logout` event is always immediately followed by `stop`
and a `stop` event is always the final event of the whole trace — after
the handler runs, no further primitive invocation, click, or state
transition occurs in that run. -/
theorem fatal_handler_halts (ci : CraftItem) (rt fuel : Nat) (envs : Nat → IterEnv) :
    (∀ pre post, (mainLoop ci rt envs fuel).2 = pre ++ Ev.stop :: post →
      post = []) ∧
    (∀ pre post, (mainLoop ci rt envs fuel).2 = pre ++ Ev.logout :: post →
      post = [Ev.stop]) := by
  obtain ⟨h1, h2⟩ := runLoop_lastSeg ci (lastCraftItemIndex true ci.materials)
    (rt * 60) envs fuel 0 initialState
  constructor
  · exact fun pre post h =>
      lastSeg_append Ev.stop []
        [Ev.logMsg "Selecting inventory...", Ev.moveMouse, Ev.click,
          Ev.logMsg ("Max craftable: " ++ toString (maxCraftable true ci.materials))]
        _ h1 (by simp) pre post h
  · exact fun pre post h =>
      lastSeg_append Ev.logout [Ev.stop]
        [Ev.logMsg "Selecting inventory...", Ev.moveMouse, Ev.click,
          Ev.logMsg ("Max craftable: " ++ toString (maxCraftable true ci.materials))]
        _ h2 (by simp) pre post h

theorem fatal_handler_halts_witness :
    ([] : List Ev) = [] ∧ [Ev.stop] = [Ev.stop] :=
  ⟨(fatal_handler_halts sapphireRecipe 1 2 (fun _ => envTemplate)).1
      [Ev.logMsg "Selecting inventory...", Ev.moveMouse, Ev.click,
        Ev.logMsg "Max craftable: 13", Ev.logMsg "State: pre-craft",
        Ev.logMsg "Last item not found. idk what to do. logging out.", Ev.logout]
      [] (by decide),
    (fatal_handler_halts sapphireRecipe 1 2 (fun _ => envTemplate)).2
      [Ev.logMsg "Selecting inventory...", Ev.moveMouse, Ev.click,
        Ev.logMsg "Max craftable: 13", Ev.logMsg "State: pre-craft",
        Ev.logMsg "Last item not found. idk what to do. logging out."]
      [Ev.stop] (by decide)⟩

theorem runLoop_succ_iterate (ci : CraftItem) (li et : Nat) (envs : Nat → IterEnv)
    (fuel i : Nat) (ls : LoopState) (h1 : ls.stopped = false) (h2 : ls.elapsed < et) :
    runLoop ci li et envs (fuel + 1) i ls
      = ((runLoop ci li et envs fuel (i + 1) (iteration ci li et (envs i) ls).1).1,
        (iteration ci li et (envs i) ls).2
          ++ (runLoop ci li et envs fuel (i + 1) (iteration ci li et (envs i) ls).1).2) := by
  simp [runLoop, h1, h2]

theorem runLoop_succ_finish (ci : CraftItem) (li et : Nat) (envs : Nat → IterEnv)
    (fuel i : Nat) (ls : LoopState) (h1 : ls.stopped = false) (h2 : ¬ls.elapsed < et) :
    runLoop ci li et envs (fuel + 1) i ls = ({ls with stopped := true}, finishEvs) := by
  simp [runLoop, h1, h2]

theorem runLoop_finish (ci : CraftItem) (li et : Nat) (envs : Nat → IterEnv) :
    ∀ (fuel i : Nat) (ls : LoopState), ls.stopped = false → ls.fatal = false →
      (runLoop ci li et envs fuel i ls).1.stopped = true →
      (runLoop ci li et envs fuel i ls).1.fatal = false →
      (∃ p, (runLoop ci li et envs fuel i ls).2 = p ++ finishEvs) ∧
      (runLoop ci li et envs fuel i ls).2.count Ev.logout = 1 ∧
      (runLoop ci li et envs fuel i ls).2.count Ev.stop = 1 := by
  intro fuel
  induction fuel with
  | zero =>
    intro i ls hls _ hstop _
    simp [runLoop, hls] at hstop
  | succ fuel ih =>
    intro i ls hls hlf hstop hfat
    by_cases h2 : ls.elapsed < et
    · rcases iteration_shape ci li et (envs i) ls with
        ⟨hs, hf, hst, hlg⟩ | ⟨hs, hf, p, m, hpst, hplg, hevs⟩
      · rw [runLoop_succ_iterate ci li et envs fuel i ls hls h2] at hstop hfat ⊢
        obtain ⟨⟨p, hp⟩, hc1, hc2⟩ := ih (i + 1) (iteration ci li et (envs i) ls).1
          (by rw [hs, hls]) (by rw [hf, hlf]) hstop hfat
        refine ⟨⟨(iteration ci li et (envs i) ls).2 ++ p, ?_⟩, ?_, ?_⟩
        · simp [hp]
        · simp [List.count_append, hc1, List.count_eq_zero_of_not_mem hlg]
        · simp [List.count_append, hc2, List.count_eq_zero_of_not_mem hst]
      · rw [runLoop_succ_iterate ci li et envs fuel i ls hls h2,
          runLoop_stopped ci li et envs fuel (i + 1) _ hs] at hfat
        simp [hf] at hfat
    · rw [runLoop_succ_finish ci li et envs fuel i ls hls h2]
      exact ⟨⟨[], by simp⟩,
        by change finishEvs.count Ev.logout = 1; decide,
        by change finishEvs.count Ev.stop = 1; decide⟩

/-- C3: when the configured time budget elapses with no fatal condition
having occurred (the run halted with the fatal flag clear), the controller
sets progress to 1.0 and then invokes logout exactly once followed by stop
exactly once: the trace ends with `update_progress(1)`, the "Finished."
log, `logout`, `stop`, and contains exactly one logout and one stop event
in total. (The `self.stop()` on line 235 is unreachable: the `stop()`
inside `__logout` has already halted the controller.) -/
theorem budget_elapsed_shutdown (ci : CraftItem) (rt fuel : Nat) (envs : Nat → IterEnv)
    (hstop : (mainLoop ci rt envs fuel).1.stopped = true)
    (hnofatal : (mainLoop ci rt envs fuel).1.fatal = false) :
    (∃ p, (mainLoop ci rt envs fuel).2
        = p ++ [Ev.updateProgress 1, Ev.logMsg "Finished.", Ev.logout, Ev.stop]) ∧
    (mainLoop ci rt envs fuel).2.count Ev.logout = 1 ∧
    (mainLoop ci rt envs fuel).2.count Ev.stop = 1 := by
  obtain ⟨⟨p, hp⟩, hc1, hc2⟩ := runLoop_finish ci (lastCraftItemIndex true ci.materials)
    (rt * 60) envs fuel 0 initialState rfl rfl hstop hnofatal
  have hm : (mainLoop ci rt envs fuel).2
      = [Ev.logMsg "Selecting inventory...", Ev.moveMouse, Ev.click,
          Ev.logMsg ("Max craftable: " ++ toString (maxCraftable true ci.materials))]
        ++ (runLoop ci (lastCraftItemIndex true ci.materials) (rt * 60) envs
              fuel 0 initialState).2 := rfl
  have hpl1 : Ev.logout ∉ [Ev.logMsg "Selecting inventory...", Ev.moveMouse, Ev.click,
      Ev.logMsg ("Max craftable: " ++ toString (maxCraftable true ci.materials))] := by
    simp
  have hpl2 : Ev.stop ∉ [Ev.logMsg "Selecting inventory...", Ev.moveMouse, Ev.click,
      Ev.logMsg ("Max craftable: " ++ toString (maxCraftable true ci.materials))] := by
    simp
  refine ⟨⟨[Ev.logMsg "Selecting inventory...", Ev.moveMouse, Ev.click,
      Ev.logMsg ("Max craftable: " ++ toString (maxCraftable true ci.materials))] ++ p, ?_⟩,
    ?_, ?_⟩
  · rw [hm, hp]
    simp [finishEvs]
  · rw [hm]
    simp [List.count_append, hc1, List.count_eq_zero_of_not_mem hpl1]
  · rw [hm]
    simp [List.count_append, hc2, List.count_eq_zero_of_not_mem hpl2]

theorem budget_elapsed_shutdown_witness :
    (∃ p, (mainLoop sapphireRecipe 0 (fun _ => envTemplate) 1).2
        = p ++ [Ev.updateProgress 1, Ev.logMsg "Finished.", Ev.logout, Ev.stop]) ∧
    (mainLoop sapphireRecipe 0 (fun _ => envTemplate) 1).2.count Ev.logout = 1 ∧
    (mainLoop sapphireRecipe 0 (fun _ => envTemplate) 1).2.count Ev.stop = 1 :=
  budget_elapsed_shutdown sapphireRecipe 0 1 (fun _ => envTemplate) (by decide) (by decide)

theorem endOfBody_cadence (et : Nat) (ls : LoopState) (evs : List Ev) :
    ∃ evs2, (endOfBody et ls evs).2
      = evs2 ++ [Ev.sleep 1,
          Ev.updateProgress (((endOfBody et ls evs).1.elapsed : ℚ) / (et : ℚ))] :=
  ⟨evs, rfl⟩

theorem phaseStep_cadence (ci : CraftItem) (et : Nat) (env : IterEnv)
    (ls : LoopState) (lastId : Int) (evs : List Ev)
    (h1 : (phaseStep ci et env ls lastId evs).1.stopped = false)
    (hshort : ¬(ls.state = "pre-craft" ∧ lastId = ci.item.id)) :
    ∃ evs2, (phaseStep ci et env ls lastId evs).2
      = evs2 ++ [Ev.sleep 1,
          Ev.updateProgress
            (((phaseStep ci et env ls lastId evs).1.elapsed : ℚ) / (et : ℚ))] := by
  unfold phaseStep at h1 ⊢
  dsimp only at h1 ⊢
  repeat' split
  all_goals first
    | (exact endOfBody_cadence et _ _)
    | simp_all [fatalStop]

/-- C4 counterexample: the pre-craft iteration in which the designated
slot already holds the target item id takes the `continue` shortcut
(line 180): it completes without halting, yet its trace contains neither a
sleep nor a progress report — refuting "no iteration skips the sleep or
the progress report". -/
theorem iteration_cadence_cex :
    ((iteration sapphireRecipe 12 1800 {envTemplate with inv := [⟨12, SAPPHIRE_RING⟩]}
        initialState).1.stopped = false) ∧
    ((iteration sapphireRecipe 12 1800 {envTemplate with inv := [⟨12, SAPPHIRE_RING⟩]}
        initialState).2.any isSleep = false) ∧
    ((iteration sapphireRecipe 12 1800 {envTemplate with inv := [⟨12, SAPPHIRE_RING⟩]}
        initialState).2.any isProgress = false) := by
  decide

/-- C4 (amended): every iteration that neither halts fatally nor takes the
pre-craft shortcut to post-craft (designated slot already holding the
target id, which `continue`s past the tail of the body) ends by sleeping a
flat 1 second and then reporting fractional progress equal to elapsed-time
divided by total-budget. -/
theorem iteration_cadence (ci : CraftItem) (li et : Nat) (env : IterEnv)
    (ls : LoopState)
    (h1 : (iteration ci li et env ls).1.stopped = false)
    (hshort : ¬(ls.state = "pre-craft" ∧ lastItemIdOf env.inv li = some ci.item.id)) :
    ∃ evs, (iteration ci li et env ls).2
      = evs ++ [Ev.sleep 1,
          Ev.updateProgress
            (((iteration ci li et env ls).1.elapsed : ℚ) / (et : ℚ))] := by
  cases heq : lastItemIdOf env.inv li with
  | none =>
    simp only [iteration, heq] at h1
    simp [fatalStop] at h1
  | some n =>
    by_cases hz : n = 0
    · simp only [iteration, heq] at h1
      simp [hz, fatalStop] at h1
    · simp only [iteration, heq] at h1 ⊢
      rw [if_pos hz] at h1 ⊢
      exact phaseStep_cadence ci et env ls n _ h1
        (fun hc => hshort ⟨hc.1, by rw [heq, hc.2]⟩)

theorem iteration_cadence_witness :
    ∃ evs, (iteration sapphireRecipe 12 1800
        {envTemplate with inv := [⟨12, GOLD_BAR⟩]}
        {initialState with state := "craft"}).2
      = evs ++ [Ev.sleep 1,
          Ev.updateProgress
            (((iteration sapphireRecipe 12 1800
                {envTemplate with inv := [⟨12, GOLD_BAR⟩]}
                {initialState with state := "craft"}).1.elapsed : ℚ) / ((1800 : Nat) : ℚ))] :=
  iteration_cadence sapphireRecipe 12 1800
    {envTemplate with inv := [⟨12, GOLD_BAR⟩]}
    {initialState with state := "craft"} (by decide) (by decide)

/-- C1 counterexample: in the bank phase the deposit action clicks
inventory slot 4 (hard-coded on line 205), not the designated slot: with
the 2-material recipe the designated index is 12, the trace moves to and
clicks slot 4, and never touches slot 12. -/
theorem bank_deposit_slot_cex :
    lastCraftItemIndex true sapphireRecipe.materials = 12 ∧
    Ev.moveToSlot 4 ∈ (iteration sapphireRecipe 12 1800
      {envTemplate with inv := [⟨12, SAPPHIRE_RING⟩]}
      {initialState with state := "bank"}).2 ∧
    Ev.moveToSlot 12 ∉ (iteration sapphireRecipe 12 1800
      {envTemplate with inv := [⟨12, SAPPHIRE_RING⟩]}
      {initialState with state := "bank"}).2 := by
  decide

/-- C1 (amended): in the bank phase (designated slot readable), the
deposit action clicks the inventory slot at the hard-coded index 4 — not
the designated slot — then waits 1 second, before the material
withdrawals run in recipe order. -/
theorem bank_deposit_order (ci : CraftItem) (li et : Nat) (env : IterEnv)
    (ls : LoopState) (n : Int)
    (hstate : ls.state = "bank")
    (hid : lastItemIdOf env.inv li = some n) (hnz : n ≠ 0) :
    ∃ rest, (iteration ci li et env ls).2
      = [Ev.logMsg ("State: " ++ ls.state), Ev.logMsg ("Last item id: " ++ toString n),
          Ev.moveToSlot 4, Ev.click, Ev.sleep 1]
        ++ (withdrawMaterials env.materialFound ci.materials).1 ++ rest := by
  simp only [iteration, hid]
  rw [if_pos hnz]
  cases hres : (withdrawMaterials env.materialFound ci.materials).2 with
  | none =>
    refine ⟨exitBankEvs ++ [Ev.sleep 1,
      Ev.updateProgress
        (((ls.elapsed + 1 + sleepTotal (withdrawMaterials env.materialFound ci.materials).1
            + 1 : Nat) : ℚ) / (et : ℚ))], ?_⟩
    simp [phaseStep, hstate, hres, endOfBody]
  | some msg =>
    refine ⟨logoutEvs msg, ?_⟩
    simp [phaseStep, hstate, hres, fatalStop]

theorem bank_deposit_order_witness :
    ∃ rest, (iteration sapphireRecipe 12 1800
        {envTemplate with inv := [⟨12, SAPPHIRE_RING⟩]}
        {initialState with state := "bank"}).2
      = [Ev.logMsg ("State: " ++ ({initialState with state := "bank"} : LoopState).state),
          Ev.logMsg ("Last item id: " ++ toString (SAPPHIRE_RING : Int)),
          Ev.moveToSlot 4, Ev.click, Ev.sleep 1]
        ++ (withdrawMaterials
              ({envTemplate with inv := [⟨12, SAPPHIRE_RING⟩]} : IterEnv).materialFound
              sapphireRecipe.materials).1 ++ rest :=
  bank_deposit_order sapphireRecipe 12 1800
    {envTemplate with inv := [⟨12, SAPPHIRE_RING⟩]}
    {initialState with state := "bank"} SAPPHIRE_RING rfl (by decide) (by decide)

end FurnaceBot
